import Mathlib

/-!
Verification of the portfolio-backtest engine.

This file gives a shallow embedding of the two source files of the
repository (engine.py and data_loader.py) and proves properties of the
embedded definitions.

Modelling conventions:
- A pandas DataFrame is a DFrame: a date index (List Int), a column list
  (List String) and row-major data (List (List (Option Rat))); a NaN cell
  is none, a numeric cell is some q (floats are modelled by rationals).
- A Python function that can raise is an Except-valued function. A raised
  Python exception is a PyError carrying the Python exception class name
  and the message, exactly as in the source: every validation raise in
  engine.py is a ValueError with a distinguishing message, and the
  premature-access raise in the returns accessor is a RuntimeError.
- The spec names its failures (IndexOrderError, ExposureLimitError, ...);
  each such name is defined below as the concrete (class, message) pair
  that the corresponding raise site in engine.py produces.
-/

/- Rat's arithmetic is irreducible by default; restore the ordinary
reducibility so that closed rational computations can be settled by
decide (kernel reduction stays sound, this only changes unfolding
hints). -/
set_option allowUnsafeReducibility true
attribute [semireducible] Rat.add Rat.mul Rat.sub Rat.div Rat.inv Rat.blt Rat.neg

/-- A raised Python exception: exception class name and message. -/
structure PyError where
  cls : String
  msg : String
deriving DecidableEq

/-- The spec's IndexOrderError: the raise at engine.py line 55
(class ValueError, message from the f-string). -/
def IndexOrderError (name : String) : PyError :=
  ⟨"ValueError", "Sorted " ++ name ++ " index must be monotonic increasing"⟩

/-- The spec's IndexUniquenessError: the raise at engine.py line 57. -/
def IndexUniquenessError (name : String) : PyError :=
  ⟨"ValueError", name ++ " index must be unique"⟩

/-- The spec's MissingValueError: the raise at engine.py line 64. -/
def MissingValueError (name : String) : PyError :=
  ⟨"ValueError", name ++ " contains NaN"⟩

/-- The spec's InvalidPriceError: the raise at engine.py line 107,
always invoked with name = "Prices". -/
def InvalidPriceError : PyError :=
  ⟨"ValueError", "Prices must be strictly positive"⟩

/-- The spec's InvalidWeightError: the raise at engine.py line 86,
always invoked with name = "Weights". -/
def InvalidWeightError : PyError :=
  ⟨"ValueError", "Weights must be non-negative"⟩

/-- The spec's ExposureLimitError: the raise at engine.py line 78. -/
def ExposureLimitError : PyError :=
  ⟨"ValueError", "Net exposure exceeds 100% (no leverage allowed)"⟩

/-- The spec's AlignmentError for a date-index mismatch:
the raise at engine.py line 128. -/
def AlignmentIndexError : PyError :=
  ⟨"ValueError", "Prices and weights must have the same index"⟩

/-- The spec's AlignmentError for a column mismatch:
the raise at engine.py line 130. -/
def AlignmentColumnsError : PyError :=
  ⟨"ValueError", "Prices and weights must have the same columns"⟩

/-- The spec's EngineStateError: the raise at engine.py line 174
(a RuntimeError in the source). -/
def EngineStateError : PyError :=
  ⟨"RuntimeError", "Contributions not computed yet"⟩

/-- A pandas DataFrame: date index, asset columns, row-major cells.
A cell holding none models NaN. -/
structure DFrame where
  index : List Int
  cols : List String
  data : List (List (Option Rat))
deriving DecidableEq

/-- Shape well-formedness of a DFrame (pandas maintains this
automatically): one data row per index entry, each row as wide as the
column list. -/
def DFrame.WF (d : DFrame) : Prop :=
  d.data.length = d.index.length ∧ ∀ r ∈ d.data, r.length = d.cols.length

instance (d : DFrame) : Decidable d.WF := by
  unfold DFrame.WF
  infer_instance

/-- pandas Index.is_monotonic_increasing: non-strict (equal neighbours
allowed). -/
def is_monotonic_increasing : List Int → Bool
  | [] => true
  | [_] => true
  | a :: b :: rest => decide (a ≤ b) && is_monotonic_increasing (b :: rest)

/-- pandas Index.is_unique: no duplicate entries. -/
def is_unique : List Int → Bool
  | [] => true
  | a :: rest => !(rest.contains a) && is_unique rest

/-- The numerical tolerance TOL = 1e-6 of Backtest_Engine. -/
def TOL : Rat := 1 / 1000000

/-- Backtest_Engine._check_clean_index (engine.py lines 46-57). -/
def check_clean_index (d : DFrame) (name : String) : Except PyError Unit :=
  if is_monotonic_increasing d.index then
    if is_unique d.index then .ok ()
    else .error (IndexUniquenessError name)
  else .error (IndexOrderError name)

/-- Backtest_Engine._check_no_nan (engine.py lines 59-64):
data.isna().any().any(). -/
def check_no_nan (d : DFrame) (name : String) : Except PyError Unit :=
  if d.data.any (fun row => row.any (fun c => c.isNone)) then
    .error (MissingValueError name)
  else .ok ()

/-- pandas row sum with skipna=True: NaN cells contribute 0. -/
def nansum (row : List (Option Rat)) : Rat :=
  row.foldr (fun c acc => acc + c.getD 0) 0

/-- Backtest_Engine._check_net_exposure (engine.py lines 70-78):
(weights.sum(axis=1) > 1 + TOL).any(). -/
def check_net_exposure (w : DFrame) : Except PyError Unit :=
  if w.data.any (fun row => decide (1 + TOL < nansum row)) then
    .error ExposureLimitError
  else .ok ()

/-- Backtest_Engine._check_not_negative (engine.py lines 80-86):
(data < 0).any().any(); a NaN cell compares False in pandas. -/
def check_not_negative (d : DFrame) (name : String) : Except PyError Unit :=
  if d.data.any (fun row => row.any (fun c =>
      match c with
      | some v => decide (v < 0)
      | none => false)) then
    .error ⟨"ValueError", name ++ " must be non-negative"⟩
  else .ok ()

/-- Backtest_Engine._check_positive (engine.py lines 101-107):
(data <= 0).any().any(); a NaN cell compares False in pandas. -/
def check_positive (d : DFrame) (name : String) : Except PyError Unit :=
  if d.data.any (fun row => row.any (fun c =>
      match c with
      | some v => decide (v ≤ 0)
      | none => false)) then
    .error ⟨"ValueError", name ++ " must be strictly positive"⟩
  else .ok ()

/-- Backtest_Engine.validate_weights (engine.py lines 88-95). -/
def validate_weights (w : DFrame) : Except PyError Unit :=
  match check_no_nan w "Weights" with
  | .error e => .error e
  | .ok _ =>
    match check_clean_index w "Weights" with
    | .error e => .error e
    | .ok _ =>
      match check_not_negative w "Weights" with
      | .error e => .error e
      | .ok _ => check_net_exposure w

/-- Backtest_Engine.validate_prices (engine.py lines 109-115). -/
def validate_prices (p : DFrame) : Except PyError Unit :=
  match check_no_nan p "Prices" with
  | .error e => .error e
  | .ok _ =>
    match check_clean_index p "Prices" with
    | .error e => .error e
    | .ok _ => check_positive p "Prices"

/-- Backtest_Engine.validate_match_data (engine.py lines 121-130). -/
def validate_match_data (p w : DFrame) : Except PyError Unit :=
  if w.index = p.index then
    if w.cols = p.cols then .ok ()
    else .error AlignmentColumnsError
  else .error AlignmentIndexError

/-- One row of prices.pct_change(): cell-wise b / a - 1 from the previous
row a to the current row b; undefined when either side is NaN. -/
def pctRow (prev cur : List (Option Rat)) : List (Option Rat) :=
  List.zipWith (fun a b =>
    match a, b with
    | some x, some y => some (y / x - 1)
    | _, _ => none) prev cur

/-- Row-level action of pct_change: the first row becomes all NaN, row t
is the relative change from row t-1 to row t. -/
def pct_data : List (List (Option Rat)) → List (List (Option Rat))
  | [] => []
  | r0 :: rest => r0.map (fun _ => none) :: List.zipWith pctRow (r0 :: rest) rest

/-- prices.pct_change() (engine.py line 152). -/
def pct_change (d : DFrame) : DFrame :=
  { d with data := pct_data d.data }

/-- Row-level action of shift(1) on a table m columns wide: every row
moves down one slot, the first row becomes all NaN, the last row falls
off. -/
def shift_data (m : Nat) : List (List (Option Rat)) → List (List (Option Rat))
  | [] => []
  | r0 :: rest => List.replicate m none :: (r0 :: rest).dropLast

/-- weights.shift(1) (engine.py line 156). -/
def shift1 (d : DFrame) : DFrame :=
  { d with data := shift_data d.cols.length d.data }

/-- Cell-wise product of two rows; NaN propagates. -/
def mulRow (r1 r2 : List (Option Rat)) : List (Option Rat) :=
  List.zipWith (fun a b =>
    match a, b with
    | some x, some y => some (x * y)
    | _, _ => none) r1 r2

/-- Element-wise DataFrame product (engine.py line 156). The operands
there share index and columns, so alignment is the identity. -/
def dfMul (a b : DFrame) : DFrame :=
  { index := a.index, cols := a.cols, data := List.zipWith mulRow a.data b.data }

/-- A row with no NaN cell. -/
def rowComplete (row : List (Option Rat)) : Bool :=
  row.all (fun c => c.isSome)

/-- DataFrame.dropna() (engine.py line 159): drop every row that has at
least one NaN cell, keeping the index entries of the surviving rows. -/
def dropna (d : DFrame) : DFrame :=
  { index := ((d.index.zip d.data).filter (fun pr => rowComplete pr.2)).map Prod.fst
    cols := d.cols
    data := ((d.index.zip d.data).filter (fun pr => rowComplete pr.2)).map Prod.snd }

/-- The engine's state: the two inputs and the result slot
self.contributions (None until run() completes). -/
structure Backtest_Engine where
  prices : DFrame
  weights : DFrame
  contributions : Option DFrame
deriving DecidableEq

/-- Backtest_Engine.__init__ (engine.py lines 20-40): stores the inputs
and sets the result slot to None. -/
def Backtest_Engine.init (prices weights : DFrame) : Backtest_Engine :=
  ⟨prices, weights, none⟩

/-- Backtest_Engine.run (engine.py lines 136-159), as a function from the
pre-state to either the raised error or the post-state. The only mutation
in the source is the single assignment self.contributions = ... on the
last line, so an error leaves the state untouched (see runState). -/
def Backtest_Engine.run (e : Backtest_Engine) : Except PyError Backtest_Engine :=
  match validate_prices e.prices with
  | .error err => .error err
  | .ok _ =>
    match validate_weights e.weights with
    | .error err => .error err
    | .ok _ =>
      match validate_match_data e.prices e.weights with
      | .error err => .error err
      | .ok _ =>
        .ok { e with
              contributions :=
                some (dropna (dfMul (pct_change e.prices) (shift1 e.weights))) }

/-- The state of the engine after calling run(), whether or not it
raised: on a raise the state is unchanged, because the sole assignment in
run() is its final statement. -/
def Backtest_Engine.runState (e : Backtest_Engine) : Backtest_Engine :=
  match e.run with
  | .ok e2 => e2
  | .error _ => e

/-- The Backtest_Engine.returns property (engine.py lines 165-175):
raises RuntimeError when the result slot is still None, otherwise the
row-wise sum of the contribution matrix as a date-indexed series. -/
def Backtest_Engine.returns (e : Backtest_Engine) : Except PyError (List (Int × Rat)) :=
  match e.contributions with
  | none => .error EngineStateError
  | some c => .ok (c.index.zip (c.data.map nansum))

/-- Whether column j of the table is entirely NaN
(data[i].isna().all() in data_loader.py line 27). -/
def colAllMissing (d : DFrame) (j : Nat) : Bool :=
  d.data.all (fun row => (row.getD j none).isNone)

/-- The missing_tickers list of load_data (data_loader.py lines 22-28):
every column whose cells are all NaN, in column order. -/
def missing_tickers (d : DFrame) : List String :=
  ((List.range d.cols.length).filter (fun j => colAllMissing d j)).map
    (fun j => d.cols.getD j "")

/-- data.isna().sum().sum() (data_loader.py line 35): the total number of
NaN cells. -/
def n_missing (d : DFrame) : Nat :=
  (d.data.map (fun row => (row.filter (fun c => c.isNone)).length)).sum

/-- load_data (data_loader.py lines 21-41) after the external download:
raises one Exception naming every entirely-missing ticker, otherwise
reports the count of remaining NaN cells and returns the table unchanged
(the print is modelled by returning the count). -/
def load_check (d : DFrame) : Except (List String) (Nat × DFrame) :=
  if 0 < (missing_tickers d).length then .error (missing_tickers d)
  else .ok (n_missing d, d)

/-! ## Helper lemmas -/

instance {e a : Type} [DecidableEq e] [DecidableEq a] : DecidableEq (Except e a)
  | .ok x, .ok y =>
    if h : x = y then .isTrue (by rw [h])
    else .isFalse (by intro hh; cases hh; exact h rfl)
  | .error x, .error y =>
    if h : x = y then .isTrue (by rw [h])
    else .isFalse (by intro hh; cases hh; exact h rfl)
  | .ok _, .error _ => .isFalse (by intro hh; cases hh)
  | .error _, .ok _ => .isFalse (by intro hh; cases hh)

/-- Every cell of every row is defined (no NaN anywhere). -/
def AllSome (rows : List (List (Option Rat))) : Prop :=
  ∀ r ∈ rows, ∀ c ∈ r, c.isSome = true

theorem check_no_nan_ok {d : DFrame} {name : String}
    (h : check_no_nan d name = .ok ()) : AllSome d.data := by
  unfold check_no_nan at h
  split at h
  · cases h
  · rename_i hcond
    simp only [List.any_eq_true, Option.isNone_iff_eq_none, not_exists, not_and] at hcond
    intro r hr c hc
    cases hcm : c with
    | some v => rfl
    | none => exact absurd hcm (hcond r hr c hc)

theorem validate_prices_ok {p : DFrame} (h : validate_prices p = .ok ()) :
    check_no_nan p "Prices" = .ok () ∧ check_clean_index p "Prices" = .ok () ∧
    check_positive p "Prices" = .ok () := by
  unfold validate_prices at h
  cases h1 : check_no_nan p "Prices" with
  | error e => rw [h1] at h; cases h
  | ok u =>
    cases u
    rw [h1] at h
    cases h2 : check_clean_index p "Prices" with
    | error e => rw [h2] at h; cases h
    | ok u2 => cases u2; rw [h2] at h; exact ⟨rfl, rfl, h⟩

theorem validate_weights_ok {w : DFrame} (h : validate_weights w = .ok ()) :
    check_no_nan w "Weights" = .ok () ∧ check_clean_index w "Weights" = .ok () ∧
    check_not_negative w "Weights" = .ok () ∧ check_net_exposure w = .ok () := by
  unfold validate_weights at h
  cases h1 : check_no_nan w "Weights" with
  | error e => rw [h1] at h; cases h
  | ok u =>
    cases u
    rw [h1] at h
    cases h2 : check_clean_index w "Weights" with
    | error e => rw [h2] at h; cases h
    | ok u2 =>
      cases u2
      rw [h2] at h
      cases h3 : check_not_negative w "Weights" with
      | error e => rw [h3] at h; cases h
      | ok u3 => cases u3; rw [h3] at h; exact ⟨rfl, rfl, rfl, h⟩

theorem validate_match_data_ok {p w : DFrame}
    (h : validate_match_data p w = .ok ()) : w.index = p.index ∧ w.cols = p.cols := by
  unfold validate_match_data at h
  split at h
  · split at h
    · rename_i h1 h2; exact ⟨h1, h2⟩
    · cases h
  · cases h

theorem run_ok_inv {e e2 : Backtest_Engine} (h : e.run = .ok e2) :
    validate_prices e.prices = .ok () ∧ validate_weights e.weights = .ok () ∧
    validate_match_data e.prices e.weights = .ok () ∧
    e2 = { e with
           contributions :=
             some (dropna (dfMul (pct_change e.prices) (shift1 e.weights))) } := by
  unfold Backtest_Engine.run at h
  cases h1 : validate_prices e.prices with
  | error err => rw [h1] at h; cases h
  | ok u =>
    cases u
    rw [h1] at h
    cases h2 : validate_weights e.weights with
    | error err => rw [h2] at h; cases h
    | ok u2 =>
      cases u2
      rw [h2] at h
      cases h3 : validate_match_data e.prices e.weights with
      | error err => rw [h3] at h; cases h
      | ok u3 => cases u3; rw [h3] at h; cases h; exact ⟨rfl, rfl, rfl, rfl⟩

theorem zipWith_dropLast_right {α β γ : Type} (f : α → β → γ) :
    ∀ (xs : List α) (ys : List β), xs.length < ys.length →
      List.zipWith f xs ys.dropLast = List.zipWith f xs ys := by
  intro xs
  induction xs with
  | nil => intro ys _; simp
  | cons x xt ih =>
    intro ys hlen
    cases ys with
    | nil => simp at hlen
    | cons y yt =>
      cases yt with
      | nil => simp at hlen
      | cons y2 yt2 =>
        rw [List.dropLast_cons₂]
        rw [List.zipWith_cons_cons, List.zipWith_cons_cons]
        rw [ih (y2 :: yt2) (by simpa using hlen)]

theorem zipWith_cells_some (g : Option Rat → Option Rat → Option Rat)
    (hg : ∀ x y : Rat, (g (some x) (some y)).isSome = true) :
    ∀ r1 r2 : List (Option Rat), (∀ c ∈ r1, c.isSome = true) → (∀ c ∈ r2, c.isSome = true) →
      ∀ c ∈ List.zipWith g r1 r2, c.isSome = true := by
  intro r1
  induction r1 with
  | nil => intro r2 _ _ c hc; simp at hc
  | cons a t ih =>
    intro r2 h1 h2 c hc
    cases r2 with
    | nil => simp at hc
    | cons b t2 =>
      rw [List.zipWith_cons_cons] at hc
      cases hc with
      | head =>
        have ha := h1 a (by simp)
        have hb := h2 b (by simp)
        cases a with
        | none => simp at ha
        | some x =>
          cases b with
          | none => simp at hb
          | some y => exact hg x y
      | tail _ hmem =>
        exact ih t2 (fun c hcm => h1 c (List.mem_cons_of_mem _ hcm))
          (fun c hcm => h2 c (List.mem_cons_of_mem _ hcm)) c hmem

theorem zipWith_rows_allSome (F : List (Option Rat) → List (Option Rat) → List (Option Rat))
    (hF : ∀ r1 r2, (∀ c ∈ r1, c.isSome = true) → (∀ c ∈ r2, c.isSome = true) →
      ∀ c ∈ F r1 r2, c.isSome = true) :
    ∀ rows1 rows2, AllSome rows1 → AllSome rows2 → AllSome (List.zipWith F rows1 rows2) := by
  intro rows1
  induction rows1 with
  | nil => intro rows2 _ _ r hr; simp at hr
  | cons a t ih =>
    intro rows2 h1 h2 r hr
    cases rows2 with
    | nil => simp at hr
    | cons b t2 =>
      rw [List.zipWith_cons_cons] at hr
      cases hr with
      | head => exact hF a b (h1 a (by simp)) (h2 b (by simp))
      | tail _ hmem =>
        exact ih t2 (fun r hrm => h1 r (List.mem_cons_of_mem _ hrm))
          (fun r hrm => h2 r (List.mem_cons_of_mem _ hrm)) r hmem

theorem pctRow_allSome {r1 r2 : List (Option Rat)}
    (h1 : ∀ c ∈ r1, c.isSome = true) (h2 : ∀ c ∈ r2, c.isSome = true) :
    ∀ c ∈ pctRow r1 r2, c.isSome = true :=
  zipWith_cells_some
    (fun a b =>
      match a, b with
      | some x, some y => some (y / x - 1)
      | _, _ => none)
    (fun _ _ => rfl) r1 r2 h1 h2

theorem mulRow_allSome {r1 r2 : List (Option Rat)}
    (h1 : ∀ c ∈ r1, c.isSome = true) (h2 : ∀ c ∈ r2, c.isSome = true) :
    ∀ c ∈ mulRow r1 r2, c.isSome = true :=
  zipWith_cells_some
    (fun a b =>
      match a, b with
      | some x, some y => some (x * y)
      | _, _ => none)
    (fun _ _ => rfl) r1 r2 h1 h2

theorem rowComplete_iff {r : List (Option Rat)} :
    rowComplete r = true ↔ ∀ c ∈ r, c.isSome = true := by
  unfold rowComplete
  exact List.all_eq_true

/-- Closed form of the contribution matrix computed by run() on
validated, fully-defined inputs with at least one asset column: the first
date is dropped and row t pairs the return from date t to date t+1 with
the weight row of date t. -/
theorem contrib_closed_form {p w : DFrame}
    (hWp : p.WF) (hWw : w.WF)
    (hAp : AllSome p.data) (hAw : AllSome w.data)
    (hidx : w.index = p.index) (hcols : w.cols = p.cols)
    (hm : 0 < p.cols.length) :
    dropna (dfMul (pct_change p) (shift1 w)) =
      ⟨p.index.drop 1, p.cols,
        List.zipWith mulRow (List.zipWith pctRow p.data p.data.tail) w.data⟩ := by
  obtain ⟨hlp, hwp⟩ := hWp
  obtain ⟨hlw, _⟩ := hWw
  cases hpd : p.data with
  | nil =>
    have hpi : p.index = [] := by
      rw [hpd] at hlp
      exact List.length_eq_zero.mp hlp.symm
    have hwd : w.data = [] := by
      rw [hidx, hpi] at hlw
      exact List.length_eq_zero.mp hlw
    simp [dropna, dfMul, pct_change, shift1, pct_data, shift_data, hpd, hpi, hwd]
  | cons p0 ps =>
    cases hpi : p.index with
    | nil =>
      rw [hpd, hpi] at hlp
      simp at hlp
    | cons i0 itl =>
      cases hwd : w.data with
      | nil =>
        rw [hwd, hidx, hpi] at hlw
        simp at hlw
      | cons w0 ws =>
        have hlen1 : ps.length = itl.length := by
          rw [hpd, hpi] at hlp
          simpa using hlp
        have hlen2 : ws.length = itl.length := by
          rw [hwd, hidx, hpi] at hlw
          simpa using hlw
        have hp0len : p0.length = p.cols.length := by
          refine hwp p0 ?_
          rw [hpd]
          exact List.mem_cons_self _ _
        have hAp2 : AllSome (p0 :: ps) := by rw [← hpd]; exact hAp
        have hAw2 : AllSome (w0 :: ws) := by rw [← hwd]; exact hAw
        -- the cell data of the product frame
        have hdata : List.zipWith mulRow (pct_data p.data) (shift_data w.cols.length w.data) =
            mulRow (p0.map fun _ => none) (List.replicate w.cols.length none) ::
              List.zipWith mulRow (List.zipWith pctRow (p0 :: ps) ps) (w0 :: ws) := by
          rw [hpd, hwd]
          show List.zipWith mulRow
              (p0.map (fun _ => none) :: List.zipWith pctRow (p0 :: ps) ps)
              (List.replicate w.cols.length none :: (w0 :: ws).dropLast) = _
          rw [List.zipWith_cons_cons]
          congr 1
          apply zipWith_dropLast_right
          rw [List.length_zipWith]
          simp only [List.length_cons]
          omega
        -- the all-NaN first row is incomplete
        have hhead : rowComplete
            (mulRow (p0.map fun _ => none) (List.replicate w.cols.length none)) = false := by
          have hcl : w.cols.length = p.cols.length := by rw [hcols]
          cases hp0 : p0 with
          | nil =>
            rw [hp0] at hp0len
            rw [← hp0len] at hm
            simp at hm
          | cons c0 cs =>
            have : w.cols.length = cs.length + 1 := by
              rw [hcl, ← hp0len, hp0]
              simp
            rw [this, List.replicate_succ, List.map_cons]
            simp [mulRow, rowComplete]
        -- every later row is complete
        have htail : ∀ r ∈ List.zipWith mulRow (List.zipWith pctRow (p0 :: ps) ps) (w0 :: ws),
            rowComplete r = true := by
          have h1 : AllSome (List.zipWith pctRow (p0 :: ps) ps) :=
            zipWith_rows_allSome pctRow (fun r1 r2 a b => pctRow_allSome a b)
              (p0 :: ps) ps hAp2
              (fun r hr => hAp2 r (List.mem_cons_of_mem _ hr))
          have h2 : AllSome (List.zipWith mulRow (List.zipWith pctRow (p0 :: ps) ps) (w0 :: ws)) :=
            zipWith_rows_allSome mulRow (fun r1 r2 a b => mulRow_allSome a b)
              _ _ h1 hAw2
          intro r hr
          exact rowComplete_iff.mpr (h2 r hr)
        have hTlen : (List.zipWith mulRow (List.zipWith pctRow (p0 :: ps) ps) (w0 :: ws)).length
            = itl.length := by
          rw [List.length_zipWith, List.length_zipWith]
          simp only [List.length_cons]
          omega
        -- assemble
        show dropna ⟨p.index, p.cols,
            List.zipWith mulRow (pct_data p.data) (shift_data w.cols.length w.data)⟩ = _
        rw [hdata, hpi]
        unfold dropna
        simp only [List.zip_cons_cons, List.filter_cons, hhead]
        rw [List.filter_eq_self.mpr (fun pr hpr => htail pr.2 (List.of_mem_zip hpr).2)]
        simp only [Bool.false_eq_true, if_false]
        rw [List.map_fst_zip _ _ (by rw [hTlen]), List.map_snd_zip _ _ (by rw [hTlen])]
        simp

/-- Cell access in a DFrame by row position and column position: none
when the position is out of range, otherwise the (possibly NaN) cell. -/
def cellv (d : DFrame) (t j : Nat) : Option (Option Rat) :=
  d.data[t]?.bind (fun r => r[j]?)

theorem getElem?_zipWith_both {α β γ : Type} (f : α → β → γ) {l1 : List α} {l2 : List β}
    {i : Nat} {a : α} {b : β} (h1 : l1[i]? = some a) (h2 : l2[i]? = some b) :
    (List.zipWith f l1 l2)[i]? = some (f a b) := by
  rw [List.getElem?_zipWith', h1, h2]
  rfl

theorem pctRow_getElem? {r1 r2 : List (Option Rat)} {j : Nat} {a b : Rat}
    (h1 : r1[j]? = some (some a)) (h2 : r2[j]? = some (some b)) :
    (pctRow r1 r2)[j]? = some (some (b / a - 1)) :=
  getElem?_zipWith_both _ h1 h2

theorem mulRow_getElem? {r1 r2 : List (Option Rat)} {j : Nat} {x y : Rat}
    (h1 : r1[j]? = some (some x)) (h2 : r2[j]? = some (some y)) :
    (mulRow r1 r2)[j]? = some (some (x * y)) :=
  getElem?_zipWith_both _ h1 h2

/-- C1. For every validated price matrix and weight matrix accepted by
run(), for every date position t after the first and every asset position
j, the stored contribution matrix holds the date of position t at its row
t-1 and its cell there equals (price[t,j] / price[t-1,j] - 1) *
weight[t-1,j]: each return is paired with the weight of the immediately
preceding period. -/
theorem C1_contribution_pairs_prior_weight {p w : DFrame} {c0 : Option DFrame}
    {e2 : Backtest_Engine}
    (hWp : p.WF) (hWw : w.WF)
    (hrun : Backtest_Engine.run ⟨p, w, c0⟩ = .ok e2)
    {t j : Nat} (ht1 : 1 ≤ t) (ht2 : t < p.index.length) (hj : j < p.cols.length) :
    ∃ c : DFrame, e2.contributions = some c ∧
      c.index[t-1]? = p.index[t]? ∧
      ∃ a b wv : Rat,
        cellv p (t-1) j = some (some a) ∧
        cellv p t j = some (some b) ∧
        cellv w (t-1) j = some (some wv) ∧
        cellv c (t-1) j = some (some ((b / a - 1) * wv)) := by
  obtain ⟨hvp, hvw, hvm, he2⟩ := run_ok_inv hrun
  have hAp : AllSome p.data := check_no_nan_ok (validate_prices_ok hvp).1
  have hAw : AllSome w.data := check_no_nan_ok (validate_weights_ok hvw).1
  obtain ⟨hidx, hcols⟩ := validate_match_data_ok hvm
  have hm : 0 < p.cols.length := Nat.lt_of_le_of_lt (Nat.zero_le j) hj
  have hcf := contrib_closed_form hWp hWw hAp hAw hidx hcols hm
  obtain ⟨hlp, hwdt⟩ := hWp
  obtain ⟨hlw, hwdw⟩ := hWw
  have hlw2 : w.data.length = p.index.length := by rw [hlw, hidx]
  refine ⟨⟨p.index.drop 1, p.cols,
    List.zipWith mulRow (List.zipWith pctRow p.data p.data.tail) w.data⟩, ?_, ?_, ?_⟩
  · rw [he2]
    simp only []
    rw [hcf]
  · show (p.index.drop 1)[t-1]? = p.index[t]?
    rw [List.getElem?_drop]
    congr 1
    omega
  · -- the three input cells
    have hb1 : t - 1 < p.data.length := by omega
    have hb2 : t < p.data.length := by omega
    have hb3 : t - 1 < w.data.length := by omega
    have hr1 : p.data[t-1]? = some p.data[t-1] := List.getElem?_eq_getElem hb1
    have hr2 : p.data[t]? = some p.data[t] := List.getElem?_eq_getElem hb2
    have hr3 : w.data[t-1]? = some w.data[t-1] := List.getElem?_eq_getElem hb3
    have hw1 : j < (p.data[t-1]).length := by
      rw [hwdt (p.data[t-1]) (p.data.getElem_mem hb1)]
      exact hj
    have hw2 : j < (p.data[t]).length := by
      rw [hwdt (p.data[t]) (p.data.getElem_mem hb2)]
      exact hj
    have hw3 : j < (w.data[t-1]).length := by
      rw [hwdw (w.data[t-1]) (w.data.getElem_mem hb3), hcols]
      exact hj
    obtain ⟨a, ha⟩ := Option.isSome_iff_exists.mp
      (hAp (p.data[t-1]) (p.data.getElem_mem hb1) ((p.data[t-1])[j])
        ((p.data[t-1]).getElem_mem hw1))
    obtain ⟨b, hb⟩ := Option.isSome_iff_exists.mp
      (hAp (p.data[t]) (p.data.getElem_mem hb2) ((p.data[t])[j])
        ((p.data[t]).getElem_mem hw2))
    obtain ⟨wv, hwv⟩ := Option.isSome_iff_exists.mp
      (hAw (w.data[t-1]) (w.data.getElem_mem hb3) ((w.data[t-1])[j])
        ((w.data[t-1]).getElem_mem hw3))
    have hc1 : (p.data[t-1])[j]? = some (some a) := by
      rw [List.getElem?_eq_getElem hw1, ha]
    have hc2 : (p.data[t])[j]? = some (some b) := by
      rw [List.getElem?_eq_getElem hw2, hb]
    have hc3 : (w.data[t-1])[j]? = some (some wv) := by
      rw [List.getElem?_eq_getElem hw3, hwv]
    have htail : p.data.tail[t-1]? = some p.data[t] := by
      rw [← List.drop_one, List.getElem?_drop]
      have : 1 + (t - 1) = t := by omega
      rw [this, hr2]
    refine ⟨a, b, wv, ?_, ?_, ?_, ?_⟩
    · unfold cellv
      rw [hr1]
      simpa using hc1
    · unfold cellv
      rw [hr2]
      simpa using hc2
    · unfold cellv
      rw [hr3]
      simpa using hc3
    · unfold cellv
      have hrowT : (List.zipWith mulRow (List.zipWith pctRow p.data p.data.tail) w.data)[t-1]? =
          some (mulRow (pctRow (p.data[t-1]) (p.data[t])) (w.data[t-1])) :=
        getElem?_zipWith_both _ (getElem?_zipWith_both _ hr1 htail) hr3
      show (List.zipWith mulRow (List.zipWith pctRow p.data p.data.tail) w.data)[t-1]?.bind
          (fun r => r[j]?) = _
      rw [hrowT]
      simpa using mulRow_getElem? (pctRow_getElem? hc1 hc2) hc3

/-- C2 (amended: at least one asset column). On any validated pair, run()
succeeds and the returns series raises nothing, has one entry per input
date except the first, and carries the input dates in order with the
first removed. -/
theorem C2_run_then_returns {p w : DFrame}
    (hWp : p.WF) (hWw : w.WF)
    (hvp : validate_prices p = .ok ()) (hvw : validate_weights w = .ok ())
    (hvm : validate_match_data p w = .ok ())
    (hm : 0 < p.cols.length) :
    ∃ e2 : Backtest_Engine, (Backtest_Engine.init p w).run = .ok e2 ∧
      ∃ r : List (Int × Rat), e2.returns = .ok r ∧
        r.map Prod.fst = p.index.drop 1 ∧
        r.length = p.index.length - 1 := by
  have hAp := check_no_nan_ok (validate_prices_ok hvp).1
  have hAw := check_no_nan_ok (validate_weights_ok hvw).1
  obtain ⟨hidx, hcols⟩ := validate_match_data_ok hvm
  have hcf := contrib_closed_form hWp hWw hAp hAw hidx hcols hm
  obtain ⟨hlp, _⟩ := hWp
  obtain ⟨hlw, _⟩ := hWw
  have hrun : (Backtest_Engine.init p w).run =
      .ok ⟨p, w, some (dropna (dfMul (pct_change p) (shift1 w)))⟩ := by
    unfold Backtest_Engine.init Backtest_Engine.run
    simp only [hvp, hvw, hvm]
  have hTlen : (List.zipWith mulRow (List.zipWith pctRow p.data p.data.tail) w.data).length =
      p.index.length - 1 := by
    rw [List.length_zipWith, List.length_zipWith, List.length_tail]
    rw [hlp, hlw, hidx]
    omega
  refine ⟨_, hrun, ?_⟩
  rw [hcf]
  refine ⟨_, rfl, ?_, ?_⟩
  · rw [List.map_fst_zip]
    rw [List.length_map, hTlen, List.length_drop]
  · rw [List.length_zip, List.length_map, hTlen, List.length_drop]
    omega

/-- Prices of the worked example in the spec: asset A at 100, 110, 121
over dates 1, 2, 3. -/
def specP : DFrame := ⟨[1, 2, 3], ["A"], [[some 100], [some 110], [some 121]]⟩

/-- Weights of the worked example in the spec: fully invested in A. -/
def specW : DFrame := ⟨[1, 2, 3], ["A"], [[some 1], [some 1], [some 1]]⟩

/-- C8. On the spec's worked example, run() stores contribution 1/10 at
date 2 and 1/10 at date 3, drops date 1 entirely, and the returns series
is exactly 1/10 at date 2 and 1/10 at date 3. -/
theorem C8_worked_example :
    (Backtest_Engine.init specP specW).run =
      .ok ⟨specP, specW, some ⟨[2, 3], ["A"], [[some (1/10)], [some (1/10)]]⟩⟩ ∧
    (Backtest_Engine.init specP specW).runState.returns =
      .ok [(2, 1/10), (3, 1/10)] := by
  decide

/-- A valid two-date pair with zero asset columns: every validation check
passes, yet no row of the contribution matrix is dropped. -/
def zeroAssets2 : DFrame := ⟨[1, 2], [], [[], []]⟩

/-- C2 counterexample. On a validated pair with zero asset columns and
two dates, run() succeeds but the returns series has 2 entries, not
len(dates) - 1 = 1, and it still contains the first date. -/
theorem C2_counterexample :
    zeroAssets2.WF ∧
    validate_prices zeroAssets2 = .ok () ∧
    validate_weights zeroAssets2 = .ok () ∧
    validate_match_data zeroAssets2 zeroAssets2 = .ok () ∧
    (Backtest_Engine.init zeroAssets2 zeroAssets2).run =
      .ok (Backtest_Engine.init zeroAssets2 zeroAssets2).runState ∧
    (Backtest_Engine.init zeroAssets2 zeroAssets2).runState.returns =
      .ok [(1, 0), (2, 0)] ∧
    [((1 : Int), (0 : Rat)), (2, 0)].length ≠ zeroAssets2.index.length - 1 := by
  decide

/-- C10 (amended: at least one asset column). On a validated
single-date pair, run() succeeds, the stored contribution matrix is
empty, and the returns accessor returns an empty series without
raising. -/
theorem C10_single_date {p w : DFrame}
    (hWp : p.WF) (hWw : w.WF)
    (hvp : validate_prices p = .ok ()) (hvw : validate_weights w = .ok ())
    (hvm : validate_match_data p w = .ok ())
    (hone : p.index.length = 1) (hm : 0 < p.cols.length) :
    ∃ e2 : Backtest_Engine, (Backtest_Engine.init p w).run = .ok e2 ∧
      e2.contributions = some ⟨[], p.cols, []⟩ ∧
      e2.returns = .ok [] := by
  have hAp := check_no_nan_ok (validate_prices_ok hvp).1
  have hAw := check_no_nan_ok (validate_weights_ok hvw).1
  obtain ⟨hidx, hcols⟩ := validate_match_data_ok hvm
  have hcf := contrib_closed_form hWp hWw hAp hAw hidx hcols hm
  obtain ⟨hlp, _⟩ := hWp
  have hdrop : p.index.drop 1 = [] := List.drop_eq_nil_of_le (le_of_eq hone)
  have htl : p.data.tail = [] := by
    have : p.data.tail.length = 0 := by
      rw [List.length_tail, hlp, hone]
    exact List.length_eq_zero.mp this
  have hT : List.zipWith mulRow (List.zipWith pctRow p.data p.data.tail) w.data = [] := by
    rw [htl, List.zipWith_nil_right]
    rfl
  have hrun : (Backtest_Engine.init p w).run =
      .ok ⟨p, w, some (dropna (dfMul (pct_change p) (shift1 w)))⟩ := by
    unfold Backtest_Engine.init Backtest_Engine.run
    simp only [hvp, hvw, hvm]
  refine ⟨_, hrun, ?_, ?_⟩
  · rw [hcf, hdrop, hT]
  · rw [hcf, hdrop, hT]
    rfl

/-- A valid single-date table with zero asset columns. -/
def zeroAssets1 : DFrame := ⟨[1], [], [[]]⟩

/-- C10 counterexample. On a validated single-date pair with zero asset
columns, run() succeeds but the stored contribution matrix keeps its one
row (nothing is dropped) and the returns series is the one-entry series
(1, 0), not the empty series. -/
theorem C10_counterexample :
    zeroAssets1.WF ∧
    validate_prices zeroAssets1 = .ok () ∧
    validate_weights zeroAssets1 = .ok () ∧
    validate_match_data zeroAssets1 zeroAssets1 = .ok () ∧
    (Backtest_Engine.init zeroAssets1 zeroAssets1).run =
      .ok (Backtest_Engine.init zeroAssets1 zeroAssets1).runState ∧
    (Backtest_Engine.init zeroAssets1 zeroAssets1).runState.contributions =
      some ⟨[1], [], [[]]⟩ ∧
    (Backtest_Engine.init zeroAssets1 zeroAssets1).runState.returns = .ok [(1, 0)] ∧
    (Except.ok [((1 : Int), (0 : Rat))] : Except PyError (List (Int × Rat))) ≠ .ok [] := by
  decide

/-- A small valid price table used to witness the validated-run results. -/
def vP : DFrame := ⟨[10, 20], ["X"], [[some 4], [some 5]]⟩

/-- A small valid weight table used to witness the validated-run results. -/
def vW : DFrame := ⟨[10, 20], ["X"], [[some (1/2)], [some (1/2)]]⟩

theorem C2_run_then_returns_witness :
    ∃ e2 : Backtest_Engine, (Backtest_Engine.init vP vW).run = .ok e2 ∧
      ∃ r : List (Int × Rat), e2.returns = .ok r ∧
        r.map Prod.fst = vP.index.drop 1 ∧
        r.length = vP.index.length - 1 :=
  C2_run_then_returns (by decide) (by decide) (by decide) (by decide) (by decide)
    (by decide)

theorem C1_contribution_pairs_prior_weight_witness :
    ∃ c : DFrame,
      (Backtest_Engine.runState ⟨vP, vW, none⟩).contributions = some c ∧
      c.index[1-1]? = vP.index[1]? ∧
      ∃ a b wv : Rat,
        cellv vP (1-1) 0 = some (some a) ∧
        cellv vP 1 0 = some (some b) ∧
        cellv vW (1-1) 0 = some (some wv) ∧
        cellv c (1-1) 0 = some (some ((b / a - 1) * wv)) := by
  have hrun : Backtest_Engine.run ⟨vP, vW, none⟩ =
      .ok (Backtest_Engine.runState ⟨vP, vW, none⟩) := by decide
  exact C1_contribution_pairs_prior_weight (by decide) (by decide) hrun
    (by decide) (by decide) (by decide)

/-- A single-date valid pair used to witness the single-date behaviour. -/
def sP : DFrame := ⟨[7], ["A"], [[some 3]]⟩

/-- A single-date valid weight table for the same witness. -/
def sW : DFrame := ⟨[7], ["A"], [[some 1]]⟩

theorem C10_single_date_witness :
    ∃ e2 : Backtest_Engine, (Backtest_Engine.init sP sW).run = .ok e2 ∧
      e2.contributions = some ⟨[], sP.cols, []⟩ ∧
      e2.returns = .ok [] :=
  C10_single_date (by decide) (by decide) (by decide) (by decide) (by decide)
    (by decide) (by decide)

/-- C3. When the weight matrix passes the checks that precede the
exposure check (no NaN, clean index, non-negative) but some date's weight
sum exceeds 1 + TOL, and the prices are valid, run() raises
ExposureLimitError and the contribution slot keeps its prior value: no
contribution is computed. -/
theorem C3_exposure_limit {p w : DFrame} {c0 : Option DFrame}
    (hvp : validate_prices p = .ok ())
    (h1 : check_no_nan w "Weights" = .ok ())
    (h2 : check_clean_index w "Weights" = .ok ())
    (h3 : check_not_negative w "Weights" = .ok ())
    (hexp : w.data.any (fun row => decide (1 + TOL < nansum row)) = true) :
    Backtest_Engine.run ⟨p, w, c0⟩ = .error ExposureLimitError ∧
    (Backtest_Engine.runState ⟨p, w, c0⟩).contributions = c0 := by
  have hcne : check_net_exposure w = .error ExposureLimitError := by
    unfold check_net_exposure
    rw [hexp]
    rfl
  have hvw : validate_weights w = .error ExposureLimitError := by
    simp only [validate_weights, h1, h2, h3, hcne]
  have hrun : Backtest_Engine.run ⟨p, w, c0⟩ = .error ExposureLimitError := by
    simp only [Backtest_Engine.run, hvp, hvw]
  refine ⟨hrun, ?_⟩
  unfold Backtest_Engine.runState
  rw [hrun]

/-- Valid prices accompanying the over-exposed witness weights. -/
def xP : DFrame := ⟨[3], ["A"], [[some 100]]⟩

/-- Weights whose single date sums to 2 > 1 + TOL. -/
def xW : DFrame := ⟨[3], ["A"], [[some 2]]⟩

theorem C3_exposure_limit_witness :
    Backtest_Engine.run ⟨xP, xW, none⟩ = .error ExposureLimitError ∧
    (Backtest_Engine.runState ⟨xP, xW, none⟩).contributions = none :=
  C3_exposure_limit (by decide) (by decide) (by decide) (by decide) (by decide)

/-- C4. On a freshly constructed engine (run() not yet called) the
returns accessor raises EngineStateError instead of producing any
value. -/
theorem C4_returns_before_run (p w : DFrame) :
    (Backtest_Engine.init p w).returns = .error EngineStateError := rfl

/-- C7. run() never touches the input matrices: the post-state holds the
same prices and weights objects. On any validation failure the whole
state is unchanged (in particular the result slot holds its prior value
and no partial contribution matrix exists), and on success the result
slot is written exactly once, with the full contribution matrix. -/
theorem C7_no_side_effects (e : Backtest_Engine) :
    e.runState.prices = e.prices ∧
    e.runState.weights = e.weights ∧
    (∀ err, e.run = .error err → e.runState = e) ∧
    (∀ e2, e.run = .ok e2 →
      e2.prices = e.prices ∧ e2.weights = e.weights ∧
      e2.contributions =
        some (dropna (dfMul (pct_change e.prices) (shift1 e.weights)))) := by
  refine ⟨?_, ?_, ?_, ?_⟩
  · unfold Backtest_Engine.runState
    cases h : e.run with
    | error err => rfl
    | ok e2 => rw [(run_ok_inv h).2.2.2]
  · unfold Backtest_Engine.runState
    cases h : e.run with
    | error err => rfl
    | ok e2 => rw [(run_ok_inv h).2.2.2]
  · intro err h
    unfold Backtest_Engine.runState
    rw [h]
  · intro e2 h
    rw [(run_ok_inv h).2.2.2]
    exact ⟨rfl, rfl, rfl⟩

/-- An engine whose prices hold a NaN, so that run() fails. -/
def nanE : Backtest_Engine :=
  Backtest_Engine.init ⟨[1], ["A"], [[none]]⟩ ⟨[1], ["A"], [[some 1]]⟩

theorem C7_no_side_effects_witness :
    nanE.runState.prices = nanE.prices ∧ Backtest_Engine.runState nanE = nanE := by
  have h := C7_no_side_effects nanE
  exact ⟨h.1, h.2.2.1 (MissingValueError "Prices") (by decide)⟩

theorem check_no_nan_error {d : DFrame} {name : String} {err : PyError}
    (h : check_no_nan d name = .error err) : err = MissingValueError name := by
  unfold check_no_nan at h
  split at h
  · cases h
    rfl
  · cases h

theorem check_clean_index_error {d : DFrame} {name : String} {err : PyError}
    (h : check_clean_index d name = .error err) :
    err = IndexOrderError name ∨ err = IndexUniquenessError name := by
  unfold check_clean_index at h
  split at h
  · split at h
    · cases h
    · cases h
      exact Or.inr rfl
  · cases h
    exact Or.inl rfl

theorem check_not_negative_error {d : DFrame} {name : String} {err : PyError}
    (h : check_not_negative d name = .error err) :
    err = ⟨"ValueError", name ++ " must be non-negative"⟩ := by
  unfold check_not_negative at h
  split at h
  · cases h
    rfl
  · cases h

theorem check_positive_error {d : DFrame} {name : String} {err : PyError}
    (h : check_positive d name = .error err) :
    err = ⟨"ValueError", name ++ " must be strictly positive"⟩ := by
  unfold check_positive at h
  split at h
  · cases h
    rfl
  · cases h

theorem check_net_exposure_error {w : DFrame} {err : PyError}
    (h : check_net_exposure w = .error err) : err = ExposureLimitError := by
  unfold check_net_exposure at h
  split at h
  · cases h
    rfl
  · cases h

theorem validate_match_data_error {p w : DFrame} {err : PyError}
    (h : validate_match_data p w = .error err) :
    err = AlignmentIndexError ∨ err = AlignmentColumnsError := by
  unfold validate_match_data at h
  split at h
  · split at h
    · cases h
    · cases h
      exact Or.inr rfl
  · cases h
    exact Or.inl rfl

theorem validate_prices_error {p : DFrame} {err : PyError}
    (h : validate_prices p = .error err) :
    err = MissingValueError "Prices" ∨ err = IndexOrderError "Prices" ∨
    err = IndexUniquenessError "Prices" ∨ err = InvalidPriceError := by
  unfold validate_prices at h
  cases h1 : check_no_nan p "Prices" with
  | error e =>
    rw [h1] at h
    cases h
    exact Or.inl (check_no_nan_error h1)
  | ok u =>
    cases u
    rw [h1] at h
    cases h2 : check_clean_index p "Prices" with
    | error e =>
      rw [h2] at h
      cases h
      rcases check_clean_index_error h2 with h3 | h3
      · exact Or.inr (Or.inl h3)
      · exact Or.inr (Or.inr (Or.inl h3))
    | ok u2 =>
      cases u2
      rw [h2] at h
      exact Or.inr (Or.inr (Or.inr (check_positive_error h)))

theorem validate_weights_error {w : DFrame} {err : PyError}
    (h : validate_weights w = .error err) :
    err = MissingValueError "Weights" ∨ err = IndexOrderError "Weights" ∨
    err = IndexUniquenessError "Weights" ∨ err = InvalidWeightError ∨
    err = ExposureLimitError := by
  unfold validate_weights at h
  cases h1 : check_no_nan w "Weights" with
  | error e =>
    rw [h1] at h
    cases h
    exact Or.inl (check_no_nan_error h1)
  | ok u =>
    cases u
    rw [h1] at h
    cases h2 : check_clean_index w "Weights" with
    | error e =>
      rw [h2] at h
      cases h
      rcases check_clean_index_error h2 with h3 | h3
      · exact Or.inr (Or.inl h3)
      · exact Or.inr (Or.inr (Or.inl h3))
    | ok u2 =>
      cases u2
      rw [h2] at h
      cases h3 : check_not_negative w "Weights" with
      | error e =>
        rw [h3] at h
        cases h
        exact Or.inr (Or.inr (Or.inr (Or.inl (check_not_negative_error h3))))
      | ok u3 =>
        cases u3
        rw [h3] at h
        exact Or.inr (Or.inr (Or.inr (Or.inr (check_net_exposure_error h))))

/-- The failures the validation subsystem can produce, as raised by
run(): one per raise site. -/
def validation_errors : List PyError :=
  [MissingValueError "Prices", IndexOrderError "Prices",
   IndexUniquenessError "Prices", InvalidPriceError,
   MissingValueError "Weights", IndexOrderError "Weights",
   IndexUniquenessError "Weights", InvalidWeightError,
   ExposureLimitError, AlignmentIndexError, AlignmentColumnsError]

/-- Every failure run()'s validation raises is one of the eleven
raise-site errors, and its Python class is the generic ValueError. -/
theorem run_error_classified :
    ∀ (e : Backtest_Engine) (err : PyError), e.run = .error err →
      err ∈ validation_errors ∧ err.cls = "ValueError" := by
  intro e err h
  unfold Backtest_Engine.run at h
  cases h1 : validate_prices e.prices with
  | error e1 =>
    rw [h1] at h
    cases h
    rcases validate_prices_error h1 with h2 | h2 | h2 | h2 <;>
      subst h2 <;> exact ⟨by decide, by decide⟩
  | ok u =>
    cases u
    rw [h1] at h
    cases h2 : validate_weights e.weights with
    | error e2 =>
      rw [h2] at h
      cases h
      rcases validate_weights_error h2 with h3 | h3 | h3 | h3 | h3 <;>
        subst h3 <;> exact ⟨by decide, by decide⟩
    | ok u2 =>
      cases u2
      rw [h2] at h
      cases h3 : validate_match_data e.prices e.weights with
      | error e3 =>
        rw [h3] at h
        cases h
        rcases validate_match_data_error h3 with h4 | h4 <;>
          subst h4 <;> exact ⟨by decide, by decide⟩
      | ok u3 =>
        cases u3
        rw [h3] at h
        cases h

theorem check_no_nan_ok_cond {d : DFrame} {name : String}
    (h : check_no_nan d name = .ok ()) :
    d.data.any (fun row => row.any (fun c => c.isNone)) = false := by
  unfold check_no_nan at h
  split at h
  · cases h
  · rename_i hc
    simpa using hc

theorem check_clean_index_ok_cond {d : DFrame} {name : String}
    (h : check_clean_index d name = .ok ()) :
    is_monotonic_increasing d.index = true ∧ is_unique d.index = true := by
  unfold check_clean_index at h
  split at h
  · split at h
    · rename_i h1 h2
      exact ⟨h1, h2⟩
    · cases h
  · cases h

theorem check_positive_ok_cond {d : DFrame} {name : String}
    (h : check_positive d name = .ok ()) :
    d.data.any (fun row => row.any (fun c =>
      match c with
      | some v => decide (v ≤ 0)
      | none => false)) = false := by
  unfold check_positive at h
  split at h
  · cases h
  · rename_i hc
    simpa using hc

theorem check_not_negative_ok_cond {d : DFrame} {name : String}
    (h : check_not_negative d name = .ok ()) :
    d.data.any (fun row => row.any (fun c =>
      match c with
      | some v => decide (v < 0)
      | none => false)) = false := by
  unfold check_not_negative at h
  split at h
  · cases h
  · rename_i hc
    simpa using hc

theorem check_net_exposure_ok_cond {w : DFrame}
    (h : check_net_exposure w = .ok ()) :
    w.data.any (fun row => decide (1 + TOL < nansum row)) = false := by
  unfold check_net_exposure at h
  split at h
  · cases h
  · rename_i hc
    simpa using hc

/-- An input pair violates a validation invariant: some cell of either
matrix is NaN, either index is not non-decreasing or not unique, some
price is non-positive, some weight is negative, some date's weight sum
exceeds 1 + TOL, or the two matrices disagree on index or columns. Each
disjunct is the code's own test for that invariant. -/
def violatesValidation (p w : DFrame) : Prop :=
  p.data.any (fun row => row.any (fun c => c.isNone)) = true ∨
  is_monotonic_increasing p.index = false ∨
  is_unique p.index = false ∨
  p.data.any (fun row => row.any (fun c =>
    match c with
    | some v => decide (v ≤ 0)
    | none => false)) = true ∨
  w.data.any (fun row => row.any (fun c => c.isNone)) = true ∨
  is_monotonic_increasing w.index = false ∨
  is_unique w.index = false ∨
  w.data.any (fun row => row.any (fun c =>
    match c with
    | some v => decide (v < 0)
    | none => false)) = true ∨
  w.data.any (fun row => decide (1 + TOL < nansum row)) = true ∨
  w.index ≠ p.index ∨
  w.cols ≠ p.cols

/-- C5 (amended). Every input that violates a validation invariant makes
run()'s validation fail, and every failure it raises is one of the
eleven raise-site errors, each identifying its violated invariant; the
eleven are pairwise distinguishable (by message) - but every one of them
is raised as the generic Python ValueError class, not as a specific
named exception type. -/
theorem C5_distinct_messages_generic_class :
    (∀ e : Backtest_Engine, violatesValidation e.prices e.weights →
      ∃ err : PyError, e.run = .error err ∧
        err ∈ validation_errors ∧ err.cls = "ValueError") ∧
    (∀ (e : Backtest_Engine) (err : PyError), e.run = .error err →
      err ∈ validation_errors ∧ err.cls = "ValueError") ∧
    validation_errors.Nodup := by
  refine ⟨?_, run_error_classified, by decide⟩
  intro e hv
  cases h : e.run with
  | error err => exact ⟨err, rfl, run_error_classified e err h⟩
  | ok e2 =>
    exfalso
    obtain ⟨hvp, hvw, hvm, _⟩ := run_ok_inv h
    obtain ⟨hn, hc, hp⟩ := validate_prices_ok hvp
    obtain ⟨hnw, hcw, hneg, hexp⟩ := validate_weights_ok hvw
    obtain ⟨hie, hce⟩ := validate_match_data_ok hvm
    have c1 := check_no_nan_ok_cond hn
    have c2 := check_clean_index_ok_cond hc
    have c3 := check_positive_ok_cond hp
    have c4 := check_no_nan_ok_cond hnw
    have c5 := check_clean_index_ok_cond hcw
    have c6 := check_not_negative_ok_cond hneg
    have c7 := check_net_exposure_ok_cond hexp
    rcases hv with hx | hx | hx | hx | hx | hx | hx | hx | hx | hx | hx
    · rw [c1] at hx
      cases hx
    · rw [c2.1] at hx
      cases hx
    · rw [c2.2] at hx
      cases hx
    · rw [c3] at hx
      cases hx
    · rw [c4] at hx
      cases hx
    · rw [c5.1] at hx
      cases hx
    · rw [c5.2] at hx
      cases hx
    · rw [c6] at hx
      cases hx
    · rw [c7] at hx
      cases hx
    · exact hx hie
    · exact hx hce

theorem C5_distinct_messages_generic_class_witness :
    (∃ err : PyError, nanE.run = .error err ∧
      err ∈ validation_errors ∧ err.cls = "ValueError") ∧
    (MissingValueError "Prices" ∈ validation_errors ∧
      (MissingValueError "Prices").cls = "ValueError") := by
  have h := C5_distinct_messages_generic_class
  refine ⟨h.1 nanE ?_, h.2.1 nanE (MissingValueError "Prices") (by decide)⟩
  unfold violatesValidation
  exact Or.inl (by decide)

/-- A price table with a negative price (its only invariant violation). -/
def negP : DFrame := ⟨[1], ["A"], [[some (-5)]]⟩

/-- C5 counterexample. Two different violated invariants (a non-positive
price, an exposure breach) both surface as exceptions of the same
generic Python class ValueError: the validation subsystem does not fail
with a specific named exception type per invariant, it distinguishes the
invariants only through the message. -/
theorem C5_counterexample :
    validate_prices negP = .error InvalidPriceError ∧
    validate_weights xW = .error ExposureLimitError ∧
    InvalidPriceError.cls = "ValueError" ∧
    ExposureLimitError.cls = "ValueError" ∧
    InvalidPriceError ≠ ExposureLimitError ∧
    InvalidPriceError.cls = ExposureLimitError.cls := by
  decide

/-- Modelled from the spec's words: a strictly increasing timestamp
axis ("fails ... if the timestamp axis is not strictly increasing"),
used to compare the spec's classification with the code's checks. -/
def specStrictlyIncreasing : List Int → Bool
  | [] => true
  | [_] => true
  | a :: b :: rest => decide (a < b) && specStrictlyIncreasing (b :: rest)

theorem is_monotonic_iff : ∀ l : List Int,
    is_monotonic_increasing l = true ↔ List.Chain' (· ≤ ·) l
  | [] => by simp [is_monotonic_increasing]
  | [a] => by simp [is_monotonic_increasing]
  | a :: b :: rest => by
    rw [is_monotonic_increasing, List.chain'_cons, Bool.and_eq_true, decide_eq_true_iff]
    exact and_congr Iff.rfl (is_monotonic_iff (b :: rest))

theorem strict_iff : ∀ l : List Int,
    specStrictlyIncreasing l = true ↔ List.Chain' (· < ·) l
  | [] => by simp [specStrictlyIncreasing]
  | [a] => by simp [specStrictlyIncreasing]
  | a :: b :: rest => by
    rw [specStrictlyIncreasing, List.chain'_cons, Bool.and_eq_true, decide_eq_true_iff]
    exact and_congr Iff.rfl (strict_iff (b :: rest))

theorem is_unique_iff : ∀ l : List Int, is_unique l = true ↔ l.Nodup
  | [] => by simp [is_unique]
  | a :: rest => by
    rw [is_unique, List.nodup_cons, Bool.and_eq_true]
    exact and_congr (by simp) (is_unique_iff rest)

/-- The two code checks together accept exactly the strictly increasing
indices: non-strict monotonicity plus uniqueness is strictness. -/
theorem mono_and_unique_iff_strict (l : List Int) :
    (is_monotonic_increasing l = true ∧ is_unique l = true) ↔
      specStrictlyIncreasing l = true := by
  rw [is_monotonic_iff l, is_unique_iff l, strict_iff l]
  rw [List.chain'_iff_pairwise, List.chain'_iff_pairwise]
  constructor
  · rintro ⟨h1, h2⟩
    exact (h1.and h2).imp (fun hab => lt_of_le_of_ne hab.1 hab.2)
  · intro h
    exact ⟨h.imp le_of_lt, h.imp ne_of_lt⟩

/-- C6 (amended). The cleanliness check accepts exactly the strictly
increasing indices; an index that is not even non-strictly monotonic
fails with IndexOrderError; an index that is non-strictly monotonic but
has a duplicate (in particular adjacent duplicated timestamps) fails with
IndexUniquenessError, not IndexOrderError; and whichever error the check
produces is the error validate_prices and validate_weights surface for
their respective matrix, so the check applies identically to both. -/
theorem C6_index_classification :
    (∀ (d : DFrame) (name : String),
        (check_clean_index d name = .ok () ↔
          specStrictlyIncreasing d.index = true) ∧
        (is_monotonic_increasing d.index = false →
          check_clean_index d name = .error (IndexOrderError name)) ∧
        (is_monotonic_increasing d.index = true → is_unique d.index = false →
          check_clean_index d name = .error (IndexUniquenessError name))) ∧
    (∀ (p : DFrame) (err : PyError), check_no_nan p "Prices" = .ok () →
      check_clean_index p "Prices" = .error err →
      validate_prices p = .error err) ∧
    (∀ (w : DFrame) (err : PyError), check_no_nan w "Weights" = .ok () →
      check_clean_index w "Weights" = .error err →
      validate_weights w = .error err) := by
  refine ⟨fun d name => ⟨?_, ?_, ?_⟩, ?_, ?_⟩
  · rw [← mono_and_unique_iff_strict]
    unfold check_clean_index
    constructor
    · intro h
      split at h
      · split at h
        · rename_i h1 h2
          exact ⟨h1, h2⟩
        · cases h
      · cases h
    · rintro ⟨h1, h2⟩
      rw [h1, h2]
      simp
  · intro h1
    unfold check_clean_index
    rw [h1]
    simp
  · intro h1 h2
    unfold check_clean_index
    rw [h1, h2]
    simp
  · intro p err hnn hcl
    simp only [validate_prices, hnn, hcl]
  · intro w err hnn hcl
    simp only [validate_weights, hnn, hcl]

/-- An index that strictly decreases. -/
def decIdx : DFrame := ⟨[2, 1], ["A"], [[some 1], [some 1]]⟩

theorem C6_index_classification_witness :
    check_clean_index decIdx "Prices" = .error (IndexOrderError "Prices") ∧
    validate_prices decIdx = .error (IndexOrderError "Prices") := by
  have h := C6_index_classification
  have h1 : check_clean_index decIdx "Prices" = .error (IndexOrderError "Prices") :=
    (h.1 decIdx "Prices").2.1 (by decide)
  exact ⟨h1, h.2.1 decIdx (IndexOrderError "Prices") (by decide) h1⟩

/-- A table whose index holds duplicated adjacent timestamps. -/
def dupIdx : DFrame := ⟨[1, 1, 2], ["A"], [[some 1], [some 1], [some 1]]⟩

/-- C6 counterexample. The index 1, 1, 2 is not strictly increasing, so
the spec's assignment makes the check fail with IndexOrderError; the
code's order check is pandas' non-strict is_monotonic_increasing, which
passes it, and the check fails with IndexUniquenessError instead. -/
theorem C6_counterexample :
    specStrictlyIncreasing dupIdx.index = false ∧
    is_monotonic_increasing dupIdx.index = true ∧
    check_clean_index dupIdx "Prices" = .error (IndexUniquenessError "Prices") ∧
    IndexUniquenessError "Prices" ≠ IndexOrderError "Prices" := by
  decide

/-- C9. The loader fails with a single error listing every asset whose
price column is entirely missing: whenever one column is entirely
missing it raises, and the raised list contains every such asset, not
only the first. When no column is entirely missing it does not fail on
partially missing data: it reports the total count of missing cells and
returns the price table with those cells still missing. -/
theorem C9_loader (d : DFrame) :
    ((∃ j, j < d.cols.length ∧ colAllMissing d j = true) →
        load_check d = .error (missing_tickers d) ∧
        ∀ j, j < d.cols.length → colAllMissing d j = true →
          d.cols.getD j "" ∈ missing_tickers d) ∧
    ((∀ j, j < d.cols.length → colAllMissing d j = false) →
        load_check d = .ok (n_missing d, d)) := by
  constructor
  · rintro ⟨j, hj, hcol⟩
    have hmem : d.cols.getD j "" ∈ missing_tickers d := by
      unfold missing_tickers
      exact List.mem_map_of_mem _ (List.mem_filter.mpr ⟨List.mem_range.mpr hj, hcol⟩)
    have hpos : 0 < (missing_tickers d).length :=
      List.length_pos.mpr (List.ne_nil_of_mem hmem)
    refine ⟨?_, ?_⟩
    · unfold load_check
      rw [if_pos hpos]
    · intro j2 hj2 hcol2
      unfold missing_tickers
      exact List.mem_map_of_mem _ (List.mem_filter.mpr ⟨List.mem_range.mpr hj2, hcol2⟩)
  · intro hall
    have hnil : missing_tickers d = [] := by
      unfold missing_tickers
      rw [List.filter_eq_nil_iff.mpr (fun j hj => by
        rw [hall j (List.mem_range.mp hj)]
        simp)]
      rfl
    unfold load_check
    rw [hnil]
    simp

/-- A downloaded table in which columns A and C are entirely missing. -/
def mloadT : DFrame :=
  ⟨[1, 2], ["A", "B", "C"], [[none, some 1, none], [none, some 2, none]]⟩

/-- A downloaded table with one partially missing cell and no entirely
missing column. -/
def ploadT : DFrame := ⟨[1, 2], ["A", "B"], [[some 1, some 1], [none, some 2]]⟩

theorem C9_loader_witness :
    load_check mloadT = .error (missing_tickers mloadT) ∧
    mloadT.cols.getD 0 "" ∈ missing_tickers mloadT ∧
    mloadT.cols.getD 2 "" ∈ missing_tickers mloadT ∧
    load_check ploadT = .ok (n_missing ploadT, ploadT) := by
  have h := (C9_loader mloadT).1 ⟨0, by decide, by decide⟩
  have h2 := (C9_loader ploadT).2 (by decide)
  exact ⟨h.1, h.2 0 (by decide) (by decide), h.2 2 (by decide) (by decide), h2⟩
